import Mathlib

/-!
Verification of the maelstrom-rs node skeleton: a shallow embedding of
`src/message.rs` (the `Message`/`Body` wire envelope and its serde
parse/serialize semantics) and `src/node.rs` (the `Node` lifecycle state
machine, reply-id counter and handler dispatch), with theorems settling
the specification claims about them.
-/

set_option maxHeartbeats 1000000

namespace Maelstrom

/-- JSON values, as in `serde_json::Value` (numbers restricted to integers,
which is all this code base manipulates). Objects are association lists of
unique keys; lookup takes the first match. -/
inductive Json where
  | null : Json
  | bool (b : Bool) : Json
  | num (n : Int) : Json
  | str (s : String) : Json
  | arr (elems : List Json) : Json
  | obj (fields : List (String × Json)) : Json

/-- Escape one character the way `serde_json`'s compact serializer does. -/
def escapeChar (c : Char) : String :=
  if c = '"' then "\\\""
  else if c = '\\' then "\\\\"
  else if c = '\n' then "\\n"
  else if c = '\r' then "\\r"
  else if c = '\t' then "\\t"
  else if c = '\x08' then "\\b"
  else if c = '\x0c' then "\\f"
  else if c.toNat < 0x20 then
    "\\u00" ++ String.mk [Nat.digitChar (c.toNat / 16), Nat.digitChar (c.toNat % 16)]
  else String.mk [c]

/-- Escape a string for inclusion in compact JSON output. -/
def escapeString (s : String) : String :=
  String.join (s.toList.map escapeChar)

mutual

/-- Compact JSON rendering, as `serde_json::Value::to_string` produces
(`{"k":v}` with no spaces). -/
def Json.compact : Json → String
  | .null => "null"
  | .bool true => "true"
  | .bool false => "false"
  | .num n => toString n
  | .str s => "\"" ++ escapeString s ++ "\""
  | .arr elems => "[" ++ compactElems elems ++ "]"
  | .obj fields => "\x7b" ++ compactFields fields ++ "\x7d"

/-- Comma-separated compact rendering of array elements. -/
def compactElems : List Json → String
  | [] => ""
  | [v] => Json.compact v
  | v :: rest => Json.compact v ++ "," ++ compactElems rest

/-- Comma-separated compact rendering of object fields. -/
def compactFields : List (String × Json) → String
  | [] => ""
  | [kv] => "\"" ++ escapeString kv.1 ++ "\":" ++ Json.compact kv.2
  | kv :: rest =>
      "\"" ++ escapeString kv.1 ++ "\":" ++ Json.compact kv.2 ++ "," ++ compactFields rest

end

/-- Model of `v.to_string().replace("\"", "")`: the compact rendering with every
double-quote character removed (the pattern is the single character `"`,
so the replacement deletes exactly those characters), used by
`InitializedNode::new` to turn the `node_id` / `node_ids` JSON values into
plain strings. -/
def jsonFieldString (v : Json) : String :=
  String.mk ((Json.compact v).toList.filter (fun c => c ≠ '"'))

/-- The `u64` modulus. -/
def u64Mod : Nat := 2 ^ 64

/-- The body of a maelstrom message (`Body` in `src/message.rs`).
`msg_id` and `in_reply_to` are `u64` fields with serde `default`, so an
absent field parses to `0`; `extra` is the serde-`flatten` open mapping of
the remaining body fields. -/
structure Body where
  typ : String
  msg_id : Nat
  in_reply_to : Nat
  extra : List (String × Json)

/-- A maelstrom message (`Message` in `src/message.rs`). -/
structure Message where
  src : String
  dest : String
  body : Body

/-- The fixed (non-open-mapping) body keys. -/
def fixedBodyKeys : List String := ["type", "msg_id", "in_reply_to"]

/-- Deserialize the `type` field: serde `default` makes an absent field the
empty string; a present non-string fails. -/
def getTypeField : Option Json → Option String
  | none => some ""
  | some (.str s) => some s
  | some _ => none

/-- Deserialize a `u64` field with serde `default`: absent is `0`; a present
value must be an integer in `[0, 2^64)`. -/
def getU64Field : Option Json → Option Nat
  | none => some 0
  | some (.num n) => if 0 ≤ n ∧ n < (u64Mod : Int) then some n.toNat else none
  | some _ => none

/-- Deserialize a required string field (no serde `default`): absent or
non-string fails. -/
def getReqString : Option Json → Option String
  | some (.str s) => some s
  | _ => none

/-- Parse a JSON value into a `Body`, following the serde derive on
`Body`: `type` renamed with `default`, `msg_id` / `in_reply_to` defaulted
`u64`, all remaining fields collected by `flatten` into `extra`. A
non-object fails. -/
def parseBody : Json → Option Body
  | .obj fields => do
      let typ ← getTypeField (fields.lookup "type")
      let mid ← getU64Field (fields.lookup "msg_id")
      let irt ← getU64Field (fields.lookup "in_reply_to")
      pure ⟨typ, mid, irt, fields.filter (fun kv => !(fixedBodyKeys.contains kv.1))⟩
  | _ => none

/-- Parse a JSON value into a `Message`, following the serde derive on
`Message`: `src`, `dest` required strings, `body` a required object parsed
as a `Body`; unknown top-level fields are ignored. -/
def parseMessage : Json → Option Message
  | .obj fields => do
      let src ← getReqString (fields.lookup "src")
      let dest ← getReqString (fields.lookup "dest")
      let bodyJson ← fields.lookup "body"
      let body ← parseBody bodyJson
      pure ⟨src, dest, body⟩
  | _ => none

/-- Serialize a `Body` back to JSON: `type` is omitted when empty
(`skip_serializing_if = "String::is_empty"`), `msg_id` and `in_reply_to`
are always emitted as plain integers, and the `extra` mapping is flattened
at the same level, in declaration order. -/
def serializeBody (b : Body) : Json :=
  .obj ((if b.typ = "" then [] else [("type", Json.str b.typ)]) ++
    [("msg_id", Json.num b.msg_id), ("in_reply_to", Json.num b.in_reply_to)] ++ b.extra)

/-- Serialize a `Message` back to JSON. -/
def serializeMessage (m : Message) : Json :=
  .obj [("src", Json.str m.src), ("dest", Json.str m.dest), ("body", serializeBody m.body)]

/-- An initialized node's identity (`InitializedNode` in `src/node.rs`):
its own id and the ids of the other nodes from the init message. -/
structure InitializedNode where
  id : String
  other_nodes : List String
  deriving DecidableEq, Repr

/-- Node lifecycle states (`State` in `src/node.rs`). -/
inductive State where
  | start : State
  | initialized (node : InitializedNode) : State
  deriving DecidableEq, Repr

/-- The errors `Node::new` and `Node::handle` can produce. In the Rust
source these are `anyhow` errors distinguished by their message text; the
constructors mirror the spec's taxonomy. Handler-originated errors are
opaque strings carried verbatim. -/
inductive NodeError where
  | reservedHandler : NodeError
  | notReady : NodeError
  | invalidInit : NodeError
  | unhandledType (t : String) : NodeError
  | fromHandler (e : String) : NodeError
  deriving DecidableEq, Repr

/-- A message handler (`Handler` in `src/node.rs`): takes the request
message and the allocated reply id, returns a reply or an opaque error. -/
def Handler : Type := Message → Nat → Except String Message

/-- A maelstrom node (`Node` in `src/node.rs`): lifecycle state, running
reply-id counter (a `u64` `Cell`), and the handler registry (a `HashMap`,
modelled as an association list with unique keys). -/
structure Node where
  state : State
  msg_id : Nat
  handlers : List (String × Handler)

/-- Model of `Node::new`: fails if a handler is registered under the reserved type
`"init"`; otherwise the node starts in `Start` with counter `0`. -/
def Node.new (handlers : List (String × Handler)) : Except NodeError Node :=
  if (handlers.lookup "init").isSome then .error .reservedHandler
  else .ok ⟨.start, 0, handlers⟩

/-- Model of `Node::reply_id`: returns the current counter value and post-increments
it (`u64` arithmetic). -/
def Node.reply_id (n : Node) : Nat × Node :=
  (n.msg_id, { n with msg_id := (n.msg_id + 1) % u64Mod })

/-- Model of `InitializedNode::new`: extract the node identity from an init body.
The `node_id` field may hold any JSON value (it is stringified via
`to_string().replace("\"", "")`); `node_ids` must be present and an array,
whose elements are stringified the same way. -/
def InitializedNode.new (body : Body) : Except NodeError InitializedNode :=
  if body.typ ≠ "init" then .error .invalidInit
  else
    match body.extra.lookup "node_id" with
    | none => .error .invalidInit
    | some v =>
      match body.extra.lookup "node_ids" with
      | some (.arr elems) => .ok ⟨jsonFieldString v, elems.map jsonFieldString⟩
      | _ => .error .invalidInit

/-- Model of `init_reply` in `src/node.rs`: the `init_ok` reply, with `src`/`dest`
swapped, the allocated reply id, `in_reply_to` echoing the request's
`msg_id`, and no extra fields. -/
def init_reply (msg : Message) (msg_id : Nat) : Message :=
  { src := msg.dest, dest := msg.src,
    body := { typ := "init_ok", msg_id := msg_id,
              in_reply_to := msg.body.msg_id, extra := [] } }

/-- Model of `Node::handle`: the dispatch entry point. Returns the reply (or error)
together with the node's updated state, making the Rust interior
mutability (`RefCell`/`Cell`) explicit. -/
def Node.handle (n : Node) (msg : Message) : Except NodeError Message × Node :=
  if msg.body.typ = "init" then
    match n.state with
    | .start =>
      match InitializedNode.new msg.body with
      | .error e => (.error e, n)
      | .ok ini =>
        let n1 : Node := { n with state := .initialized ini }
        let (id, n2) := n1.reply_id
        (.ok (init_reply msg id), n2)
    | .initialized _ =>
      let (id, n2) := n.reply_id
      (.ok (init_reply msg id), n2)
  else if n.state = .start then
    (.error .notReady, n)
  else
    match n.handlers.lookup msg.body.typ with
    | some h =>
      let (id, n2) := n.reply_id
      match h msg id with
      | .ok reply => (.ok reply, n2)
      | .error e => (.error (.fromHandler e), n2)
    | none => (.error (.unhandledType msg.body.typ), n)

/-! Shape predicates used to state the parse-failure characterization. -/

/-- A JSON value that deserializes as a string, i.e. is one. -/
def isStringVal : Json → Bool
  | .str _ => true
  | _ => false

/-- A JSON value that deserializes as a `u64`. -/
def isU64Val : Json → Bool
  | .num n => decide (0 ≤ n ∧ n < (u64Mod : Int))
  | _ => false

/-- A required string field is rejected when absent or not a string. -/
def reqStringBad : Option Json → Bool
  | some v => !isStringVal v
  | none => true

/-- A defaulted string field is rejected only when present and not a string. -/
def optStringBad : Option Json → Bool
  | some v => !isStringVal v
  | none => false

/-- A defaulted `u64` field is rejected only when present and not a `u64`. -/
def optU64Bad : Option Json → Bool
  | some v => !isU64Val v
  | none => false

/-- Characterization of the bodies `parseBody` rejects: not an object, or a
present `type` that is not a string, or a present `msg_id` / `in_reply_to`
that is not a `u64`. -/
def bodyRejected : Json → Bool
  | .obj fields =>
      optStringBad (fields.lookup "type") || optU64Bad (fields.lookup "msg_id") ||
        optU64Bad (fields.lookup "in_reply_to")
  | _ => true

/-- Characterization of the envelopes `parseMessage` rejects: `src` or
`dest` missing or not a string, `body` missing, or a rejected body. -/
def envelopeRejected (fields : List (String × Json)) : Bool :=
  reqStringBad (fields.lookup "src") || reqStringBad (fields.lookup "dest") ||
    (match fields.lookup "body" with
     | none => true
     | some bodyJson => bodyRejected bodyJson)

/-- Field lookup on a JSON object. -/
def Json.lookupField : Json → String → Option Json
  | .obj fields, k => fields.lookup k
  | _, _ => none

/-- Whether an optional JSON value is an array. -/
def isArrOpt : Option Json → Bool
  | some (.arr _) => true
  | _ => false

/-! Shared concrete values used by witnesses and counterexamples. -/

/-- A handler that always fails, as in the `node_propagates_handler_error`
test in `src/node.rs`. -/
def failingHandler : Handler := fun _ _ => .error "error from handler"

/-- A fresh node with no handlers (the result of `Node::new(HashMap::new())`). -/
def startNode : Node := ⟨.start, 0, []⟩

/-- A fresh node whose registry maps `"id"` to the failing handler. -/
def failNode : Node := ⟨.start, 0, [("id", failingHandler)]⟩

/-- The init message of the tests in `src/node.rs`: `node_id = "n1"`,
`node_ids = ["n1", "n2"]`, `msg_id = 1`. -/
def initMsgEx : Message :=
  ⟨"c1", "n1", ⟨"init", 1, 0, [("node_id", .str "n1"), ("node_ids", .arr [.str "n1", .str "n2"])]⟩⟩

/-- A request of type `"id"`. -/
def idMsgEx : Message := ⟨"c1", "n1", ⟨"id", 2, 0, []⟩⟩

/-- A request of type `"echo"`. -/
def echoMsgEx : Message := ⟨"c1", "n1", ⟨"echo", 7, 0, [("echo", .str "hi")]⟩⟩

end Maelstrom

namespace Maelstrom

/-! Helper lemmas about association-list lookup and filtering. -/

theorem lookup_eq_none_of_keys (k : String) (l : List (String × Json))
    (h : ∀ kv ∈ l, (k == kv.1) = false) : l.lookup k = none := by
  induction l with
  | nil => rfl
  | cons kv t ih =>
      simp only [List.lookup, h kv (by simp)]
      exact ih fun kv hkv => h kv (by simp [hkv])

theorem lookup_append_of_left_none (k : String) (l₁ l₂ : List (String × Json))
    (h : l₁.lookup k = none) : (l₁ ++ l₂).lookup k = l₂.lookup k := by
  induction l₁ with
  | nil => rfl
  | cons kv t ih =>
      simp only [List.lookup] at h ⊢
      cases hk : (k == kv.1) with
      | true => simp [hk] at h
      | false => simp only [List.cons_append]; exact ih (by simpa [hk] using h)

theorem lookup_filter_fixed_none (fields : List (String × Json)) (k : String)
    (hk : fixedBodyKeys.contains k = true) :
    (fields.filter (fun kv => !(fixedBodyKeys.contains kv.1))).lookup k = none := by
  apply lookup_eq_none_of_keys
  intro kv hkv
  have hmem := List.of_mem_filter hkv
  simp only [Bool.not_eq_true'] at hmem
  by_contra hne
  simp only [Bool.not_eq_false, beq_iff_eq] at hne
  rw [hne] at hk
  rw [hk] at hmem
  simp at hmem

theorem filter_fixed_id (extra : List (String × Json))
    (h : ∀ kv ∈ extra, fixedBodyKeys.contains kv.1 = false) :
    extra.filter (fun kv => !(fixedBodyKeys.contains kv.1)) = extra := by
  apply List.filter_eq_self.mpr
  intro kv hkv
  have hc := h kv hkv
  simp_all

/-! Claim theorems. -/

/-- C5: a freshly constructed Node is in state Start, and any message whose
body type is not "init" handled in Start fails with NotReady — whatever the
handler registry contains — leaving the node unchanged. -/
theorem C5_start_rejects_non_init (hs : List (String × Handler)) (n : Node) (msg : Message)
    (hnew : Node.new hs = .ok n) (ht : msg.body.typ ≠ "init") :
    n.state = .start ∧ n.handle msg = (.error .notReady, n) := by
  have hn : n = ⟨.start, 0, hs⟩ := by
    unfold Node.new at hnew
    by_cases hins : (hs.lookup "init").isSome <;> simp [hins] at hnew
    exact hnew.symm
  subst hn
  exact ⟨rfl, by unfold Node.handle; simp [ht]⟩

/-- C5 witness: a node built with an `"id"` handler registered still
rejects an `"id"` request with NotReady before initialization. -/
theorem C5_start_rejects_non_init_witness :
    failNode.state = .start ∧ failNode.handle idMsgEx = (.error .notReady, failNode) :=
  C5_start_rejects_non_init [("id", failingHandler)] failNode idMsgEx rfl (by decide)

/-- C6: on an already-initialized node, every init message (of any content)
is answered with an init_ok reply stamped with the current counter value,
and the stored identity is unchanged. -/
theorem C6_reinit_idempotent (n : Node) (msg : Message) (ini : InitializedNode)
    (hst : n.state = .initialized ini) (ht : msg.body.typ = "init") :
    (n.handle msg).1 = .ok (init_reply msg n.msg_id) ∧
      (n.handle msg).2.state = .initialized ini := by
  unfold Node.handle
  simp [ht, hst, Node.reply_id]

/-- C6 witness: a node initialized as `n1`/`["n1","n2"]` answers a second
init message with init_ok and keeps its identity. -/
theorem C6_reinit_idempotent_witness :
    ((⟨.initialized ⟨"n1", ["n1", "n2"]⟩, 1, []⟩ : Node).handle initMsgEx).1 =
        .ok (init_reply initMsgEx 1) ∧
      ((⟨.initialized ⟨"n1", ["n1", "n2"]⟩, 1, []⟩ : Node).handle initMsgEx).2.state =
        .initialized ⟨"n1", ["n1", "n2"]⟩ :=
  C6_reinit_idempotent ⟨.initialized ⟨"n1", ["n1", "n2"]⟩, 1, []⟩ initMsgEx
    ⟨"n1", ["n1", "n2"]⟩ rfl rfl

theorem initializedNode_new_error_is_invalidInit (b : Body) (e : NodeError)
    (h : InitializedNode.new b = .error e) : e = .invalidInit := by
  unfold InitializedNode.new at h
  split at h
  · cases h; rfl
  · split at h
    · cases h; rfl
    · split at h
      · cases h
      · cases h; rfl

/-- C8: constructing a Node with a handler registered under "init" fails
with ReservedHandler and produces no Node, any registry without "init"
succeeds, and handle never produces a ReservedHandler error. -/
theorem C8_reserved_handler (hs : List (String × Handler)) (n : Node) (msg : Message) :
    Node.new hs = (if (hs.lookup "init").isSome then .error .reservedHandler
                   else .ok ⟨.start, 0, hs⟩) ∧
      (n.handle msg).1 ≠ .error .reservedHandler := by
  constructor
  · rfl
  · unfold Node.handle
    by_cases ht : msg.body.typ = "init"
    · simp only [ht, if_true]
      cases hst : n.state with
      | start =>
          cases hni : InitializedNode.new msg.body with
          | error e =>
              have := initializedNode_new_error_is_invalidInit msg.body e hni
              subst this
              simp
          | ok ini => simp [Node.reply_id]
      | initialized ini => simp [Node.reply_id]
    · simp only [ht, if_false]
      by_cases hstart : n.state = .start
      · simp [hstart]
      · simp only [hstart, if_false]
        cases hl : n.handlers.lookup msg.body.typ with
        | none => simp
        | some h =>
            cases hr : h msg n.msg_id with
            | ok reply => simp [Node.reply_id, hr]
            | error e => simp [Node.reply_id, hr]

/-- C8 witness: a registry holding "init" makes construction fail, an empty
registry succeeds, and handling an "id" request never yields
ReservedHandler. -/
theorem C8_reserved_handler_witness :
    Node.new [("init", failingHandler)] =
        (if (([("init", failingHandler)] : List (String × Handler)).lookup "init").isSome
         then .error .reservedHandler
         else .ok ⟨.start, 0, [("init", failingHandler)]⟩) ∧
      (startNode.handle idMsgEx).1 ≠ .error .reservedHandler :=
  C8_reserved_handler [("init", failingHandler)] startNode idMsgEx

/-- C9: on an initialized node, dispatching a type with a registered
handler post-increments the counter by exactly one even if the handler
fails, while NotReady, InvalidInit and UnhandledType failures leave the
counter unchanged. -/
theorem C9_counter_frame (n : Node) (msg : Message) :
    (msg.body.typ ≠ "init" → n.state ≠ .start →
        (n.handlers.lookup msg.body.typ).isSome = true →
        (n.handle msg).2.msg_id = (n.msg_id + 1) % u64Mod) ∧
      ((n.handle msg).1 = .error .notReady → (n.handle msg).2.msg_id = n.msg_id) ∧
      ((n.handle msg).1 = .error .invalidInit → (n.handle msg).2.msg_id = n.msg_id) ∧
      (∀ t, (n.handle msg).1 = .error (.unhandledType t) → (n.handle msg).2.msg_id = n.msg_id) := by
  unfold Node.handle
  by_cases ht : msg.body.typ = "init"
  · simp only [ht, if_true]
    cases hst : n.state with
    | start =>
        cases hni : InitializedNode.new msg.body with
        | error e => simp [ht]
        | ok ini => simp [ht, Node.reply_id]
    | initialized ini => simp [ht, Node.reply_id]
  · simp only [ht, if_false]
    by_cases hstart : n.state = .start
    · simp [hstart]
    · simp only [hstart, if_false]
      cases hl : n.handlers.lookup msg.body.typ with
      | none => simp
      | some h =>
          cases hr : h msg n.msg_id with
          | ok reply => simp [Node.reply_id, hr]
          | error e => simp [Node.reply_id, hr]

/-- C9 witness: on an initialized node with the failing handler registered
under "id", handling an "id" request still advances the counter from 5 to 6. -/
theorem C9_counter_frame_witness :
    ((⟨.initialized ⟨"n1", ["n1", "n2"]⟩, 5, [("id", failingHandler)]⟩ : Node).handle
        idMsgEx).2.msg_id = (5 + 1) % u64Mod :=
  (C9_counter_frame ⟨.initialized ⟨"n1", ["n1", "n2"]⟩, 5, [("id", failingHandler)]⟩
    idMsgEx).1 (by decide) (by decide) rfl

/-- C2 counterexample: on a node with the failing handler under "id", the
first init reply gets id 0; the following "id" call produces no reply yet
consumes id 1 (the counter reaches 2); so the next successful call's reply
id is 2, not 1 — consecutive successful calls do not increase by 1, and a
call that produces no reply does consume an id. -/
theorem C2_counterexample :
    Node.new [("id", failingHandler)] = .ok failNode ∧
      (failNode.handle initMsgEx).1 = .ok (init_reply initMsgEx 0) ∧
      ((failNode.handle initMsgEx).2.handle idMsgEx).1 =
        .error (.fromHandler "error from handler") ∧
      ((failNode.handle initMsgEx).2.handle idMsgEx).2.msg_id = 2 ∧
      (((failNode.handle initMsgEx).2.handle idMsgEx).2.handle initMsgEx).1 =
        .ok (init_reply initMsgEx 2) :=
  ⟨rfl, rfl, rfl, rfl, rfl⟩

/-- C2 as amended: the counter starts at 0, and a handle call consumes
exactly one id (post-incrementing) precisely when it produces a reply or
invokes a registered handler on an initialized node — a failed handler
invocation also consumes an id; all other calls leave the counter
unchanged. -/
theorem C2_amended_id_allocation (hs : List (String × Handler)) (n : Node) (msg : Message) :
    (Node.new hs = .ok n → n.msg_id = 0) ∧
      (n.handle msg).2.msg_id =
        (if (n.handle msg).1.isOk = true ∨
            (msg.body.typ ≠ "init" ∧ n.state ≠ .start ∧
              (n.handlers.lookup msg.body.typ).isSome = true)
         then (n.msg_id + 1) % u64Mod else n.msg_id) := by
  constructor
  · intro hnew
    unfold Node.new at hnew
    by_cases hins : (hs.lookup "init").isSome <;> simp [hins] at hnew
    rw [← hnew]
  · unfold Node.handle
    by_cases ht : msg.body.typ = "init"
    · simp only [ht, if_true]
      cases hst : n.state with
      | start =>
          cases hni : InitializedNode.new msg.body with
          | error e => simp [ht, hst, Except.isOk, Except.toBool]
          | ok ini => simp [ht, Node.reply_id, Except.isOk, Except.toBool]
      | initialized ini => simp [ht, Node.reply_id, Except.isOk, Except.toBool]
    · simp only [ht, if_false]
      by_cases hstart : n.state = .start
      · simp [hstart, ht, Except.isOk, Except.toBool]
      · simp only [hstart, if_false]
        cases hl : n.handlers.lookup msg.body.typ with
        | none => simp [ht, hstart, hl, Except.isOk, Except.toBool]
        | some h =>
            cases hr : h msg n.msg_id with
            | ok reply => simp [Node.reply_id, hr, ht, hstart, hl, Except.isOk, Except.toBool]
            | error e => simp [Node.reply_id, hr, ht, hstart, hl, Except.isOk, Except.toBool]

/-- C2 witness: the amended theorem applied to a fresh empty-registry node
and an "echo" request: the counter starts at 0 and this NotReady call
leaves it unchanged. -/
theorem C2_amended_id_allocation_witness :
    startNode.msg_id = 0 ∧
      (startNode.handle echoMsgEx).2.msg_id =
        (if (startNode.handle echoMsgEx).1.isOk = true ∨
            (echoMsgEx.body.typ ≠ "init" ∧ startNode.state ≠ .start ∧
              (startNode.handlers.lookup echoMsgEx.body.typ).isSome = true)
         then (startNode.msg_id + 1) % u64Mod else startNode.msg_id) :=
  ⟨(C2_amended_id_allocation [] startNode echoMsgEx).1 rfl,
    (C2_amended_id_allocation [] startNode echoMsgEx).2⟩

/-- C3 counterexample: an init message whose `node_id` is the number 42 —
not a string — is accepted, not rejected with InvalidInit: the node
initializes with own id "42" (the stringified value). -/
theorem C3_counterexample :
    (startNode.handle ⟨"c1", "n1",
        ⟨"init", 1, 0, [("node_id", .num 42), ("node_ids", .arr [.str "n1"])]⟩⟩).1 =
      .ok (init_reply ⟨"c1", "n1",
        ⟨"init", 1, 0, [("node_id", .num 42), ("node_ids", .arr [.str "n1"])]⟩⟩ 0) ∧
      (startNode.handle ⟨"c1", "n1",
        ⟨"init", 1, 0, [("node_id", .num 42), ("node_ids", .arr [.str "n1"])]⟩⟩).2.state =
        .initialized ⟨"42", ["n1"]⟩ := by
  constructor
  · rfl
  · show State.initialized ⟨jsonFieldString (.num 42), [jsonFieldString (.str "n1")]⟩ =
      State.initialized ⟨"42", ["n1"]⟩
    decide

/-- C3 as amended: handling an init message in Start succeeds iff the body
has a `node_id` field (of any JSON type) and a `node_ids` field that is an
array (of any element types); own id and the peer ids are the compact JSON
renderings of those values with double quotes stripped (for plain strings,
the strings themselves). On failure the call returns InvalidInit and the
node is unchanged, still in Start. -/
theorem C3_amended_init_extraction (n : Node) (msg : Message)
    (ht : msg.body.typ = "init") (hst : n.state = .start) :
    ((msg.body.extra.lookup "node_id" = none ∨
        isArrOpt (msg.body.extra.lookup "node_ids") = false) →
      n.handle msg = (.error .invalidInit, n)) ∧
      (∀ v elems, msg.body.extra.lookup "node_id" = some v →
        msg.body.extra.lookup "node_ids" = some (.arr elems) →
        (n.handle msg).1 = .ok (init_reply msg n.msg_id) ∧
          (n.handle msg).2.state =
            .initialized ⟨jsonFieldString v, elems.map jsonFieldString⟩) := by
  constructor
  · intro hbad
    unfold Node.handle
    simp only [ht, if_true, hst]
    have hni : InitializedNode.new msg.body = .error .invalidInit := by
      unfold InitializedNode.new
      rw [if_neg (by simp [ht])]
      rcases hbad with hnid | hnids
      · simp [hnid]
      · cases hv : msg.body.extra.lookup "node_id" with
        | none => simp
        | some v =>
            simp only [hv]
            cases hw : msg.body.extra.lookup "node_ids" with
            | none => simp
            | some w =>
                cases w <;> simp_all [isArrOpt]
    simp [hni]
  · intro v elems hv helems
    unfold Node.handle
    have hni : InitializedNode.new msg.body =
        .ok ⟨jsonFieldString v, elems.map jsonFieldString⟩ := by
      unfold InitializedNode.new
      rw [if_neg (by simp [ht])]
      simp [hv, helems]
    simp [ht, hst, hni, Node.reply_id]

/-- C3 witness: the amended theorem at the canonical init message: a
missing `node_id` yields InvalidInit with the node unchanged, and the
well-formed message initializes the node as `n1`/`["n1","n2"]`. -/
theorem C3_amended_init_extraction_witness :
    startNode.handle ⟨"c1", "n1", ⟨"init", 1, 0, [("node_ids", .arr [])]⟩⟩ =
        (.error .invalidInit, startNode) ∧
      (startNode.handle initMsgEx).1 = .ok (init_reply initMsgEx 0) ∧
        (startNode.handle initMsgEx).2.state =
          .initialized ⟨jsonFieldString (.str "n1"),
            [jsonFieldString (.str "n1"), jsonFieldString (.str "n2")]⟩ :=
  ⟨(C3_amended_init_extraction startNode
      ⟨"c1", "n1", ⟨"init", 1, 0, [("node_ids", .arr [])]⟩⟩ rfl rfl).1 (.inl rfl),
    (C3_amended_init_extraction startNode initMsgEx rfl rfl).2
      (.str "n1") [.str "n1", .str "n2"] rfl rfl⟩

/-- C4 counterexample: an init request whose body carries no `msg_id`
parses to `msg_id = 0`, and the serialized reply to it carries both
`msg_id` and `in_reply_to` present with value 0 — an absent optional id is
encoded as the value 0, not as not-present, and the reply to a request
without `message_id` still carries `in_reply_to` (as 0). -/
theorem C4_counterexample :
    ([("type", Json.str "init"), ("node_id", Json.str "n1"),
        ("node_ids", Json.arr [.str "n1"])].lookup "msg_id" = none) ∧
      parseMessage (.obj [("src", .str "c1"), ("dest", .str "n1"),
          ("body", .obj [("type", .str "init"), ("node_id", .str "n1"),
            ("node_ids", .arr [.str "n1"])])]) =
        some ⟨"c1", "n1", ⟨"init", 0, 0,
          [("node_id", .str "n1"), ("node_ids", .arr [.str "n1"])]⟩⟩ ∧
      serializeMessage (init_reply ⟨"c1", "n1", ⟨"init", 0, 0,
          [("node_id", .str "n1"), ("node_ids", .arr [.str "n1"])]⟩⟩ 0) =
        .obj [("src", .str "n1"), ("dest", .str "c1"),
          ("body", .obj [("type", .str "init_ok"), ("msg_id", .num 0),
            ("in_reply_to", .num 0)])] :=
  ⟨rfl, rfl, rfl⟩

/-- C4 as amended: `msg_id` and `in_reply_to` default to 0 when absent on
parse, and serialization always emits them as plain integers (so an absent
id is re-encoded as the value 0); every init_ok reply carries `in_reply_to`
equal to the request's (defaulted) `msg_id`. -/
theorem C4_amended_id_encoding (msg : Message) (id : Nat) (b : Body)
    (fields : List (String × Json)) :
    (init_reply msg id).body.in_reply_to = msg.body.msg_id ∧
      (serializeBody b).lookupField "msg_id" = some (.num b.msg_id) ∧
      (serializeBody b).lookupField "in_reply_to" = some (.num b.in_reply_to) ∧
      (fields.lookup "msg_id" = none → ∀ b', parseBody (.obj fields) = some b' →
        b'.msg_id = 0) := by
  refine ⟨rfl, ?_, ?_, ?_⟩
  · unfold serializeBody Json.lookupField
    by_cases htyp : b.typ = "" <;> simp [htyp, List.lookup]
  · unfold serializeBody Json.lookupField
    by_cases htyp : b.typ = "" <;> simp [htyp, List.lookup]
  · intro hmid b' hb
    unfold parseBody at hb
    simp only [hmid, getU64Field, Option.pure_def, Option.bind_eq_bind,
      Option.bind_eq_some, Option.some.injEq] at hb
    obtain ⟨t, ht, m, hm, irt, hirt, hb⟩ := hb
    cases hm
    rw [← hb]

/-- C4 witness: the amended theorem at a body without `msg_id`. -/
theorem C4_amended_id_encoding_witness :
    (init_reply initMsgEx 3).body.in_reply_to = initMsgEx.body.msg_id ∧
      (serializeBody initMsgEx.body).lookupField "msg_id" =
        some (.num initMsgEx.body.msg_id) ∧
      (serializeBody initMsgEx.body).lookupField "in_reply_to" =
        some (.num initMsgEx.body.in_reply_to) ∧
      ([("type", Json.str "echo")].lookup "msg_id" = none →
        ∀ b', parseBody (.obj [("type", Json.str "echo")]) = some b' →
          b'.msg_id = 0) :=
  C4_amended_id_encoding initMsgEx 3 initMsgEx.body [("type", Json.str "echo")]

theorem lookup_append_single_ne (k k' : String) (v : Json) (l : List (String × Json))
    (h : (k == k') = false) : (l ++ [(k', v)]).lookup k = l.lookup k := by
  induction l with
  | nil => simp [List.lookup, h]
  | cons kv t ih =>
      simp only [List.cons_append, List.lookup]
      cases hk : k == kv.1 <;> simp [ih]

theorem parseBody_append_zero (bfs : List (String × Json)) (k : String)
    (hk : k = "msg_id" ∨ k = "in_reply_to") (hnone : bfs.lookup k = none) :
    parseBody (.obj (bfs ++ [(k, .num 0)])) = parseBody (.obj bfs) := by
  have happ : ∀ k' : String, (k' == k) = false →
      (bfs ++ [(k, Json.num 0)]).lookup k' = bfs.lookup k' := by
    intro k' hne
    exact lookup_append_single_ne k' k (.num 0) bfs hne
  have hself : (bfs ++ [(k, Json.num 0)]).lookup k = some (.num 0) := by
    rw [lookup_append_of_left_none k bfs [(k, Json.num 0)] hnone]
    simp [List.lookup]
  have hfilter : (bfs ++ [(k, Json.num 0)]).filter (fun kv => !(fixedBodyKeys.contains kv.1)) =
      bfs.filter (fun kv => !(fixedBodyKeys.contains kv.1)) := by
    rw [List.filter_append]
    rcases hk with hk | hk <;> subst hk <;> simp [fixedBodyKeys]
  simp only [parseBody]
  rcases hk with hk | hk <;> subst hk
  · rw [happ "type" (by decide), happ "in_reply_to" (by decide), hself, hnone, hfilter]
    norm_num [getU64Field, u64Mod]
  · rw [happ "type" (by decide), happ "msg_id" (by decide), hself, hnone, hfilter]
    norm_num [getU64Field, u64Mod]

/-- C10: at the parsing interface an absent `msg_id` (or `in_reply_to`) is
indistinguishable from the value 0 — the same envelope with the field
absent and with the field present as 0 parse to equal Message values. -/
theorem C10_absent_id_indistinguishable (src dest : String) (bfs : List (String × Json)) :
    (bfs.lookup "msg_id" = none →
      parseMessage (.obj [("src", .str src), ("dest", .str dest),
          ("body", .obj (bfs ++ [("msg_id", .num 0)]))]) =
        parseMessage (.obj [("src", .str src), ("dest", .str dest), ("body", .obj bfs)])) ∧
      (bfs.lookup "in_reply_to" = none →
        parseMessage (.obj [("src", .str src), ("dest", .str dest),
            ("body", .obj (bfs ++ [("in_reply_to", .num 0)]))]) =
          parseMessage (.obj [("src", .str src), ("dest", .str dest), ("body", .obj bfs)])) := by
  constructor
  · intro hnone
    have hpb := parseBody_append_zero bfs "msg_id" (.inl rfl) hnone
    simp [parseMessage, List.lookup, getReqString, hpb]
  · intro hnone
    have hpb := parseBody_append_zero bfs "in_reply_to" (.inr rfl) hnone
    simp [parseMessage, List.lookup, getReqString, hpb]

/-- C10 witness: an init body without `msg_id` and the same body with
`msg_id = 0` parse to the same Message. -/
theorem C10_absent_id_indistinguishable_witness :
    parseMessage (.obj [("src", .str "c1"), ("dest", .str "n1"),
        ("body", .obj ([("type", .str "init")] ++ [("msg_id", .num 0)]))]) =
      parseMessage (.obj [("src", .str "c1"), ("dest", .str "n1"),
        ("body", .obj [("type", .str "init")])]) :=
  (C10_absent_id_indistinguishable "c1" "n1" [("type", .str "init")]).1 rfl

/-- C1 counterexample: a JSON envelope whose body has no `type` field
parses successfully (serde `default` supplies the empty string), although
the claim requires parsing to fail in that case. -/
theorem C1_counterexample :
    (([("x", Json.num 1)] : List (String × Json)).lookup "type" = none) ∧
      parseMessage (.obj [("src", .str "a"), ("dest", .str "b"),
          ("body", .obj [("x", .num 1)])]) =
        some ⟨"a", "b", ⟨"", 0, 0, [("x", .num 1)]⟩⟩ :=
  ⟨rfl, rfl⟩

theorem getReqString_isNone (o : Option Json) : (getReqString o).isNone = reqStringBad o := by
  cases o with
  | none => rfl
  | some v => cases v <;> rfl

theorem getTypeField_isNone (o : Option Json) : (getTypeField o).isNone = optStringBad o := by
  cases o with
  | none => rfl
  | some v => cases v <;> rfl

theorem getU64Field_isNone (o : Option Json) : (getU64Field o).isNone = optU64Bad o := by
  cases o with
  | none => rfl
  | some v =>
      cases v with
      | num n =>
          by_cases h : 0 ≤ n ∧ n < (u64Mod : Int) <;>
            simp [getU64Field, optU64Bad, isU64Val, h]
      | null => rfl
      | bool x => rfl
      | str s => rfl
      | arr elems => rfl
      | obj fields => rfl

theorem parseBody_isNone (j : Json) : (parseBody j).isNone = bodyRejected j := by
  cases j with
  | obj fields =>
      simp only [parseBody, bodyRejected]
      have e1 := getTypeField_isNone (fields.lookup "type")
      have e2 := getU64Field_isNone (fields.lookup "msg_id")
      have e3 := getU64Field_isNone (fields.lookup "in_reply_to")
      cases h1 : getTypeField (fields.lookup "type") with
      | none => rw [h1] at e1; simp [← e1]
      | some t =>
          rw [h1] at e1
          cases h2 : getU64Field (fields.lookup "msg_id") with
          | none => rw [h2] at e2; simp [h1, ← e1, ← e2]
          | some m =>
              rw [h2] at e2
              cases h3 : getU64Field (fields.lookup "in_reply_to") with
              | none => rw [h3] at e3; simp [h1, h2, ← e1, ← e2, ← e3]
              | some irt => rw [h3] at e3; simp [h1, h2, h3, ← e1, ← e2, ← e3]
  | null => rfl
  | bool x => rfl
  | num n => rfl
  | str s => rfl
  | arr elems => rfl

/-- C1 as amended: parsing a JSON object fails if and only if `src` or
`dest` is missing or not a string, or `body` is missing or not an object,
or the body's `type` is present and not a string, or its `msg_id` or
`in_reply_to` is present and not a `u64` — a missing `body.type` does not
fail (it defaults to the empty string). -/
theorem C1_parse_fails_iff (fields : List (String × Json)) :
    (parseMessage (.obj fields)).isNone = envelopeRejected fields := by
  simp only [parseMessage, envelopeRejected]
  have e1 := getReqString_isNone (fields.lookup "src")
  have e2 := getReqString_isNone (fields.lookup "dest")
  cases h1 : getReqString (fields.lookup "src") with
  | none => rw [h1] at e1; simp [← e1]
  | some src =>
      rw [h1] at e1
      cases h2 : getReqString (fields.lookup "dest") with
      | none => rw [h2] at e2; simp [h1, ← e1, ← e2]
      | some dest =>
          rw [h2] at e2
          cases h3 : fields.lookup "body" with
          | none => simp [h1, h2, ← e1, ← e2]
          | some bj =>
              have e4 := parseBody_isNone bj
              cases h4 : parseBody bj with
              | none => rw [h4] at e4; simp [h1, h2, h3, h4, ← e1, ← e2, ← e4]
              | some body => rw [h4] at e4; simp [h1, h2, h3, h4, ← e1, ← e2, ← e4]

theorem getU64Field_lt (o : Option Json) (m : Nat) (h : getU64Field o = some m) :
    m < u64Mod := by
  cases o with
  | none =>
      cases h
      decide
  | some v =>
      cases v with
      | num n =>
          simp only [getU64Field] at h
          split at h
          · cases h
            unfold u64Mod at *
            omega
          · cases h
      | null => cases h
      | bool x => cases h
      | str s => cases h
      | arr elems => cases h
      | obj fields => cases h

theorem parseBody_wf (j : Json) (b : Body) (h : parseBody j = some b) :
    b.msg_id < u64Mod ∧ b.in_reply_to < u64Mod ∧
      ∀ kv ∈ b.extra, fixedBodyKeys.contains kv.1 = false := by
  cases j with
  | null => exact absurd h (by simp [parseBody])
  | bool x => exact absurd h (by simp [parseBody])
  | num n => exact absurd h (by simp [parseBody])
  | str s => exact absurd h (by simp [parseBody])
  | arr elems => exact absurd h (by simp [parseBody])
  | obj fields =>
      simp only [parseBody, Option.pure_def, Option.bind_eq_bind, Option.bind_eq_some,
        Option.some.injEq] at h
      obtain ⟨t, ht, m, hm, irt, hirt, hb⟩ := h
      rw [← hb]
      refine ⟨getU64Field_lt _ _ hm, getU64Field_lt _ _ hirt, ?_⟩
      intro kv hkv
      have hmem := List.of_mem_filter hkv
      simpa using hmem

theorem parseBody_serializeBody (b : Body) (hmid : b.msg_id < u64Mod)
    (hirt : b.in_reply_to < u64Mod)
    (hextra : ∀ kv ∈ b.extra, fixedBodyKeys.contains kv.1 = false) :
    parseBody (serializeBody b) = some b := by
  have hlook : ∀ k : String, fixedBodyKeys.contains k = true → b.extra.lookup k = none := by
    intro k hk
    apply lookup_eq_none_of_keys
    intro kv hkv
    have hc := hextra kv hkv
    by_contra hne
    simp only [Bool.not_eq_false, beq_iff_eq] at hne
    rw [hne] at hk
    rw [hk] at hc
    simp at hc
  have hmid' : getU64Field (some (.num (b.msg_id : Int))) = some b.msg_id := by
    simp only [getU64Field]
    rw [if_pos ⟨Int.ofNat_nonneg b.msg_id, by exact_mod_cast hmid⟩]
    simp
  have hirt' : getU64Field (some (.num (b.in_reply_to : Int))) = some b.in_reply_to := by
    simp only [getU64Field]
    rw [if_pos ⟨Int.ofNat_nonneg b.in_reply_to, by exact_mod_cast hirt⟩]
    simp
  obtain ⟨typ, mid, irt, extra⟩ := b
  simp only at hlook hmid' hirt' hextra
  have hfe := filter_fixed_id extra hextra
  have hcons : ∀ (k : String) (v : Json) (l : List (String × Json)),
      fixedBodyKeys.contains k = true →
      ((k, v) :: l).filter (fun kv => !(fixedBodyKeys.contains kv.1)) =
        l.filter (fun kv => !(fixedBodyKeys.contains kv.1)) := by
    intro k v l hk
    have hk' : k ∈ fixedBodyKeys := by simpa using hk
    simp [List.filter, hk']
  have hf2 : (("msg_id", Json.num (mid : Int)) :: ("in_reply_to", Json.num (irt : Int)) ::
      extra).filter (fun kv => !(fixedBodyKeys.contains kv.1)) = extra := by
    rw [hcons _ _ _ (by decide), hcons _ _ _ (by decide), hfe]
  have hf3 : (("type", Json.str typ) :: ("msg_id", Json.num (mid : Int)) ::
      ("in_reply_to", Json.num (irt : Int)) :: extra).filter
      (fun kv => !(fixedBodyKeys.contains kv.1)) = extra := by
    rw [hcons _ _ _ (by decide), hf2]
  by_cases htyp : typ = ""
  · subst htyp
    simp only [serializeBody, parseBody, if_pos rfl, List.nil_append, List.cons_append]
    simp [List.lookup, hlook "type" (by decide), hmid', hirt', getTypeField]
    simpa using hf2
  · simp only [serializeBody, parseBody, if_neg htyp, List.cons_append, List.nil_append]
    simp [List.lookup, hmid', hirt', getTypeField]
    simpa using hf3

/-- C7: round-trip fidelity — any message obtained by parsing a JSON
envelope re-parses to itself after serialization; in particular all
open-mapping body fields survive the parse→serialize cycle content-equal. -/
theorem C7_roundtrip_fidelity (j : Json) (m : Message) (h : parseMessage j = some m) :
    parseMessage (serializeMessage m) = some m := by
  have hb : ∃ bj, parseBody bj = some m.body := by
    cases j with
    | null => exact absurd h (by simp [parseMessage])
    | bool x => exact absurd h (by simp [parseMessage])
    | num n => exact absurd h (by simp [parseMessage])
    | str s => exact absurd h (by simp [parseMessage])
    | arr elems => exact absurd h (by simp [parseMessage])
    | obj fields =>
        simp only [parseMessage, Option.pure_def, Option.bind_eq_bind, Option.bind_eq_some,
          Option.some.injEq] at h
        obtain ⟨src, hsrc, dest, hdest, bj, hbj, body, hbody, hm⟩ := h
        exact ⟨bj, by rw [← hm]; exact hbody⟩
  obtain ⟨bj, hbj⟩ := hb
  have hwf := parseBody_wf bj m.body hbj
  have hrt := parseBody_serializeBody m.body hwf.1 hwf.2.1 hwf.2.2
  simp [parseMessage, serializeMessage, List.lookup, getReqString, hrt]

/-- C7 witness: the echo request of the `parse_message` test round-trips. -/
theorem C7_roundtrip_fidelity_witness :
    parseMessage (serializeMessage ⟨"c1", "n1", ⟨"echo", 1, 0, [("echo", .str "hi")]⟩⟩) =
      some ⟨"c1", "n1", ⟨"echo", 1, 0, [("echo", .str "hi")]⟩⟩ :=
  C7_roundtrip_fidelity (.obj [("src", .str "c1"), ("dest", .str "n1"),
    ("body", .obj [("type", .str "echo"), ("msg_id", .num 1), ("echo", .str "hi")])])
    ⟨"c1", "n1", ⟨"echo", 1, 0, [("echo", .str "hi")]⟩⟩ rfl

end Maelstrom
